import Mathlib

/-!
Verification of the Cow-Breed-Detection repository.

The repository has two source files:
* `src/services/geminiService.ts` — the Recognition Adapter
  (`recognizeCowBreed`), which sends an image to an external AI service
  and normalises the response into a `BreedInfo` discriminated result.
* `src/unnamed/part_000` — the React Interaction Shell (`App`), which
  manages transient UI state and invokes the Adapter.

We shallowly embed both.  JavaScript objects with optional fields become
structures of `Option` fields; JavaScript string truthiness (`if (x)`
on an optional string is true iff the field is present and non-empty)
is `truthyStr`; JavaScript numbers are modelled by `Rat`, which is
adequate here because the code performs no arithmetic on them — every
number is passed through verbatim.  The effects of `recognizeCowBreed`
(the single `generateContent` call, the `console.error` on failure)
are recorded in an explicit trace; the outcome of the external call
(response decoded, decoding threw, or transmission threw) is an input
parameter of the embedding.
-/

namespace CowBreed

/-- JavaScript string truthiness on an optional string field:
`if (x)` is taken iff the field is present and non-empty. -/
def truthyStr : Option String → Bool
  | none => false
  | some s => !(s == "")

/-- The `BreedInfo` record (`src/types`, used by `geminiService.ts`):
the structured response decoded from the external model, with every
field optional (the schema declares no field required), and also the
shape of the value `recognizeCowBreed` returns. -/
structure BreedInfo where
  breed : Option String := none
  description : Option String := none
  confidence : Option Rat := none
  error : Option String := none
  deriving Repr, DecidableEq

/-- A JavaScript thrown value, as discriminated by the catch block of
`recognizeCowBreed`: either an `Error` instance (which always carries a
`message` string) or any other thrown value. -/
inductive JSThrown where
  | errObj (message : String)
  | other
  deriving Repr, DecidableEq

/-- Outcome of the external interaction inside the `try` block of
`recognizeCowBreed`:
* `returns (.ok r)` — `generateContent` returned and `JSON.parse`
  decoded the response text into the record `r`;
* `returns (.error e)` — `generateContent` returned but decoding the
  response threw `e` (e.g. a `SyntaxError` on malformed output);
* `throws e` — the `generateContent` call itself threw `e`
  (network / transmission fault). -/
inductive CallOutcome where
  | returns (parsed : Except JSThrown BreedInfo)
  | throws (e : JSThrown)
  deriving Repr

/-- Observable effects of one `recognizeCowBreed` invocation. -/
inductive Effect where
  | apiCall
  | logError
  deriving Repr, DecidableEq

/-- The fixed fallback message of `geminiService.ts` line 73. -/
def fallbackNoBreedMsg : String :=
  "Could not determine the breed. The image may not contain a cow."

/-- The generic message of the catch block, line 83. -/
def genericCatchMsg : String :=
  "An unexpected error occurred during breed recognition."

/-- The catch block of `recognizeCowBreed` (lines 78–84): an `Error`
instance is surfaced as its message behind the `API Error: ` marker;
any other thrown value becomes the generic fallback message. -/
def catchHandler : JSThrown → BreedInfo
  | .errObj msg => { error := some ("API Error: " ++ msg) }
  | .other => { error := some genericCatchMsg }

/-- The post-parse branching of `recognizeCowBreed` (lines 68–76):
a truthy `error` field wins, then a falsy `breed` yields the fixed
fallback, otherwise the decoded record is returned unchanged. -/
def branchOnDecoded (result : BreedInfo) : BreedInfo :=
  if truthyStr result.error then { error := result.error }
  else if !truthyStr result.breed then { error := some fallbackNoBreedMsg }
  else result

/-- `recognizeCowBreed` (lines 41–85), embedded over the outcome of its
external interaction, together with the trace of its effects.  The
single `generateContent` call is always issued first; on any caught
exception the catch block logs (`console.error`) and normalises the
fault. -/
def recognizeRun (o : CallOutcome) : BreedInfo × List Effect :=
  match o with
  | .throws e => (catchHandler e, [.apiCall, .logError])
  | .returns (.error e) => (catchHandler e, [.apiCall, .logError])
  | .returns (.ok result) => (branchOnDecoded result, [.apiCall])

/-- The value `recognizeCowBreed` resolves with. -/
def recognizeCowBreed (o : CallOutcome) : BreedInfo :=
  (recognizeRun o).1

/-- A `BreedInfo` is in the success arm when its `breed` is present and
non-empty. -/
def isSuccess (r : BreedInfo) : Bool := truthyStr r.breed

/-- A `BreedInfo` is in the failure arm when its `error` is present and
non-empty. -/
def isFailure (r : BreedInfo) : Bool := truthyStr r.error

/-- Module initialisation of `geminiService.ts` (lines 9–13): reading
`process.env.API_KEY` and throwing when it is falsy (absent or empty).
Returns the fatal startup error, or unit when the Adapter can be
constructed. -/
def moduleInit (apiKey : Option String) : Except String Unit :=
  if !truthyStr apiKey then .error "API_KEY environment variable is not set."
  else .ok ()

/-! ## The Interaction Shell (`src/unnamed/part_000`, the `App` component) -/

/-- A selected browser file; the shell only reads its media type and
feeds it to `URL.createObjectURL`, so the rest of its content is an
opaque name. -/
structure JSFile where
  name : String := ""
  mime : String := ""
  deriving Repr, DecidableEq

/-- The transient UI state held by `App` via `useState` (lines 10–14). -/
structure AppState where
  imageFile : Option JSFile := none
  imageUrl : Option String := none
  breedInfo : Option BreedInfo := none
  isLoading : Bool := false
  error : Option String := none
  deriving Repr, DecidableEq

/-- `handleImageChange` (lines 16–23): a non-null file replaces the
selection, derives an object URL, and clears the previous result and
error; a null file does nothing.  `createObjectURL` abstracts the
browser's `URL.createObjectURL`. -/
def handleImageChange (createObjectURL : JSFile → String)
    (s : AppState) (file : Option JSFile) : AppState :=
  match file with
  | none => s
  | some f =>
    { s with
      imageFile := some f
      imageUrl := some (createObjectURL f)
      breedInfo := none
      error := none }

/-- Outcome of the `FileReader` used by `handleRecognize`: `onload`
with the data URL's base64 payload, or `onerror`. -/
inductive ReadOutcome where
  | loaded (base64 : String)
  | readFailed
  deriving Repr

/-- The synchronous prefix of `handleRecognize` (lines 26–33): with no
file selected it only sets an error; otherwise it raises the busy flag
and clears the previous error and result before anything else runs. -/
def handleRecognizeStart (s : AppState) : AppState :=
  match s.imageFile with
  | none => { s with error := some "Please upload an image first." }
  | some _ => { s with isLoading := true, error := none, breedInfo := none }

/-- The `reader.onload` continuation (lines 38–47), applied to the
Adapter's resolved value: branch on the `error` field, then clear the
busy flag. -/
def onloadCont (s : AppState) (result : BreedInfo) : AppState :=
  if truthyStr result.error then
    { s with error := result.error, isLoading := false }
  else
    { s with breedInfo := some result, isLoading := false }

/-- The `reader.onerror` continuation (lines 48–51). -/
def onerrorCont (s : AppState) : AppState :=
  { s with error := some "Failed to read the image file.", isLoading := false }

/-- One complete run of `handleRecognize` (lines 25–56): the
synchronous prefix, then — when a file is selected — the `FileReader`
continuation, which invokes the Adapter only on a successful read.
`api` is the outcome of the Adapter's external interaction for this
invocation. -/
def handleRecognizeFull (s : AppState) (read : ReadOutcome)
    (api : CallOutcome) : AppState :=
  match s.imageFile with
  | none => { s with error := some "Please upload an image first." }
  | some _ =>
    let s1 := handleRecognizeStart s
    match read with
    | .readFailed => onerrorCont s1
    | .loaded _ => onloadCont s1 (recognizeCowBreed api)

/-- The recognize button (lines 79–85) is disabled while no file is
selected or a prior invocation is outstanding. -/
def recognizeButtonDisabled (s : AppState) : Bool :=
  s.imageFile.isNone || s.isLoading

/-- Clicking the recognize trigger: a disabled button fires nothing,
otherwise `handleRecognize` runs. -/
def clickRecognize (s : AppState) (read : ReadOutcome)
    (api : CallOutcome) : AppState :=
  if recognizeButtonDisabled s then s else handleRecognizeFull s read api

/-! ## Helper lemmas -/

/-- An optional string field holding a non-empty string is truthy. -/
theorem truthyStr_some_of_ne (s : String) (h : s ≠ "") :
    truthyStr (some s) = true := by
  simp [truthyStr, h]

/-- Prefixing with the `API Error: ` marker always yields a truthy
(non-empty) message. -/
theorem apiError_msg_truthy (msg : String) :
    truthyStr (some ("API Error: " ++ msg)) = true := by
  apply truthyStr_some_of_ne
  intro h
  have h2 := congrArg String.length h
  simp [String.length_append] at h2
  exact absurd h2.1 (by decide)

/-- Both catch-handler outputs are in the failure arm and carry no
breed. -/
theorem catchHandler_failure (e : JSThrown) :
    isFailure (catchHandler e) = true ∧ isSuccess (catchHandler e) = false := by
  cases e with
  | errObj msg => exact ⟨apiError_msg_truthy msg, rfl⟩
  | other => exact ⟨by decide, rfl⟩

/-! ## Claims -/

/-- C1: for every decoded response whose `error` field is present and
non-empty, `recognizeCowBreed` returns the failure arm carrying exactly
that error text, with no other field populated, regardless of which
other fields (`breed`, `description`, `confidence`) the decoded
response carried. -/
theorem decoded_error_returned_verbatim (r : BreedInfo)
    (h : truthyStr r.error = true) :
    recognizeCowBreed (.returns (.ok r)) = { error := r.error } := by
  simp [recognizeCowBreed, recognizeRun, branchOnDecoded, h]

/-- Witness for C1 at a decoded response that also carries a breed,
a description and a confidence. -/
theorem decoded_error_returned_verbatim_witness :
    truthyStr (BreedInfo.error
      { breed := some "Holstein Friesian", description := some "spotted",
        confidence := some (92/100),
        error := some "No cow was detected in the provided image." }) = true ∧
    recognizeCowBreed (.returns (.ok
      { breed := some "Holstein Friesian", description := some "spotted",
        confidence := some (92/100),
        error := some "No cow was detected in the provided image." })) =
      { error := some "No cow was detected in the provided image." } :=
  ⟨by decide, decoded_error_returned_verbatim _ (by decide)⟩

/-- C2: for every decoded response with no non-empty `error` field and
with `breed` absent or empty, `recognizeCowBreed` returns the failure
arm carrying the fixed fallback message that the breed could not be
determined and the image may not contain a cow. -/
theorem decoded_no_breed_fallback (r : BreedInfo)
    (he : truthyStr r.error = false) (hb : truthyStr r.breed = false) :
    recognizeCowBreed (.returns (.ok r)) = { error := some fallbackNoBreedMsg } := by
  simp [recognizeCowBreed, recognizeRun, branchOnDecoded, he, hb]

/-- Witness for C2 at a decoded response with a description and a
confidence but no breed and no error. -/
theorem decoded_no_breed_fallback_witness :
    truthyStr (BreedInfo.error
      { description := some "some text", confidence := some (1/2) }) = false ∧
    truthyStr (BreedInfo.breed
      { description := some "some text", confidence := some (1/2) }) = false ∧
    recognizeCowBreed (.returns (.ok
      { description := some "some text", confidence := some (1/2) })) =
      { error := some fallbackNoBreedMsg } :=
  ⟨by decide, by decide, decoded_no_breed_fallback _ (by decide) (by decide)⟩

/-- C3: for every decoded response with a non-empty `breed` and no
non-empty `error`, `recognizeCowBreed` returns the success arm equal to
the decoded record itself — `breed`, `description` and `confidence` are
passed through unmodified, with no clamping of `confidence` and no text
sanitisation. -/
theorem decoded_success_passthrough (r : BreedInfo)
    (he : truthyStr r.error = false) (hb : truthyStr r.breed = true) :
    recognizeCowBreed (.returns (.ok r)) = r := by
  simp [recognizeCowBreed, recognizeRun, branchOnDecoded, he, hb]

/-- Witness for C3 at a decoded response whose confidence `3/2` lies
outside `[0, 1]` and is nevertheless passed through unclamped. -/
theorem decoded_success_passthrough_witness :
    truthyStr (BreedInfo.error
      { breed := some "Angus", description := some "black",
        confidence := some (3/2) }) = false ∧
    truthyStr (BreedInfo.breed
      { breed := some "Angus", description := some "black",
        confidence := some (3/2) }) = true ∧
    (1 : Rat) < 3/2 ∧
    recognizeCowBreed (.returns (.ok
      { breed := some "Angus", description := some "black",
        confidence := some (3/2) })) =
      { breed := some "Angus", description := some "black",
        confidence := some (3/2) } :=
  ⟨by decide, by decide, by norm_num,
    decoded_success_passthrough _ (by decide) (by decide)⟩

/-- C4: `recognizeCowBreed` never throws to its caller: it is a total
function into `BreedInfo`, and every exception raised during the
external call (network transmission) or while decoding its response
(malformed structured output) is converted into the failure arm with a
non-empty error message. -/
theorem recognize_absorbs_exceptions :
    ∀ e : JSThrown,
      isFailure (recognizeCowBreed (.throws e)) = true ∧
      isFailure (recognizeCowBreed (.returns (.error e))) = true := by
  intro e
  exact ⟨(catchHandler_failure e).1, (catchHandler_failure e).1⟩

/-- C5: when the caught fault is an `Error` carrying a descriptive
message, the failure arm's text is that message behind the
`API Error: ` marker; when the caught value carries no descriptive
message (not an `Error`), the failure arm carries the fixed generic
fallback message — on both the transmission-fault and the
decoding-fault path. -/
theorem catch_message_policy :
    ∀ msg : String,
      recognizeCowBreed (.throws (.errObj msg)) =
        { error := some ("API Error: " ++ msg) } ∧
      recognizeCowBreed (.returns (.error (.errObj msg))) =
        { error := some ("API Error: " ++ msg) } ∧
      recognizeCowBreed (.throws .other) = { error := some genericCatchMsg } ∧
      recognizeCowBreed (.returns (.error .other)) =
        { error := some genericCatchMsg } := by
  intro msg
  exact ⟨rfl, rfl, rfl, rfl⟩

/-- C6: every `BreedInfo` returned by `recognizeCowBreed` is success
XOR failure: it carries a non-empty breed exactly when it does not
carry a non-empty error — never both arms, never neither. -/
theorem recognize_result_xor (o : CallOutcome) :
    isSuccess (recognizeCowBreed o) = !isFailure (recognizeCowBreed o) := by
  cases o with
  | throws e =>
    have h := catchHandler_failure e
    simp [recognizeCowBreed, recognizeRun] at h ⊢
    simp [h.1, h.2]
  | returns parsed =>
    cases parsed with
    | error e =>
      have h := catchHandler_failure e
      simp [recognizeCowBreed, recognizeRun] at h ⊢
      simp [h.1, h.2]
    | ok r =>
      by_cases he : truthyStr r.error = true
      · simp only [recognizeCowBreed, recognizeRun, branchOnDecoded, he,
          if_true, isSuccess, isFailure]
        simp [truthyStr, he]
      · rw [Bool.not_eq_true] at he
        by_cases hb : truthyStr r.breed = true
        · simp only [recognizeCowBreed, recognizeRun, branchOnDecoded, he, hb,
          Bool.not_true, Bool.false_eq_true, if_false, isSuccess, isFailure]
          simp [he, hb]
        · rw [Bool.not_eq_true] at hb
          simp only [recognizeCowBreed, recognizeRun, branchOnDecoded, he, hb,
            Bool.not_false, Bool.false_eq_true, if_false, if_true,
            isSuccess, isFailure]
          simp [truthyStr, fallbackNoBreedMsg]

/-- C7: when the access credential is absent (falsy) at process start,
module initialisation fails fatally, before any `recognizeCowBreed`
call can occur; and this is the only failure not converted into a
`BreedInfo` — every per-request outcome of `recognizeCowBreed` is
returned as data, in exactly one of the two arms. -/
theorem missing_credential_fatal (apiKey : Option String)
    (h : truthyStr apiKey = false) :
    moduleInit apiKey = .error "API_KEY environment variable is not set." ∧
    ∀ o : CallOutcome,
      isSuccess (recognizeCowBreed o) = true ∨
      isFailure (recognizeCowBreed o) = true := by
  refine ⟨by simp [moduleInit, h], fun o => ?_⟩
  rcases Bool.eq_false_or_eq_true (isFailure (recognizeCowBreed o)) with hf | hf
  · right
    exact hf
  · left
    rw [recognize_result_xor o, hf]
    rfl

/-- Witness for C7 at an absent credential. -/
theorem missing_credential_fatal_witness :
    truthyStr (none : Option String) = false ∧
    (moduleInit none = .error "API_KEY environment variable is not set." ∧
     ∀ o : CallOutcome,
       isSuccess (recognizeCowBreed o) = true ∨
       isFailure (recognizeCowBreed o) = true) :=
  ⟨by decide, missing_credential_fatal none (by decide)⟩

/-- C8: each invocation of `recognizeCowBreed` issues exactly one
external API call — no retries — and issues it as its first effect;
the remainder of the invocation only processes that call's outcome
(resolving after it returns or fails), never contacting the service
again. -/
theorem recognize_single_api_call (o : CallOutcome) :
    (recognizeRun o).2.count .apiCall = 1 ∧
    (recognizeRun o).2.head? = some .apiCall := by
  cases o with
  | throws e => exact ⟨rfl, rfl⟩
  | returns parsed => cases parsed with
    | error e => exact ⟨rfl, rfl⟩
    | ok r => exact ⟨rfl, rfl⟩

/-- C9: the shell gates the recognize trigger on the busy flag
`isLoading`: while a prior invocation is outstanding the trigger is
disabled and firing it changes nothing; when the trigger does fire the
flag is raised by the synchronous prefix, before the `FileReader`
continuation that invokes the Adapter runs; and the flag is cleared
when the invocation completes or fails (on both reader-error and
Adapter-outcome paths). -/
theorem busy_flag_gates_trigger (s : AppState) (read : ReadOutcome)
    (api : CallOutcome) :
    (s.isLoading = true → clickRecognize s read api = s) ∧
    (s.imageFile.isSome = true → (handleRecognizeStart s).isLoading = true) ∧
    (recognizeButtonDisabled s = false →
      (clickRecognize s read api).isLoading = false) := by
  refine ⟨fun hl => ?_, fun hf => ?_, fun hd => ?_⟩
  · simp [clickRecognize, recognizeButtonDisabled, hl]
  · rcases hs : s.imageFile with _ | f
    · rw [hs] at hf
      simp at hf
    · simp [handleRecognizeStart, hs]
  · have hd2 := hd
    simp [recognizeButtonDisabled] at hd2
    rcases hs : s.imageFile with _ | f
    · rw [hs] at hd2
      simp at hd2
    · simp [clickRecognize, hd, handleRecognizeFull, hs]
      cases read with
      | readFailed => simp [onerrorCont]
      | loaded b64 =>
        simp only [onloadCont]
        by_cases hr : truthyStr (recognizeCowBreed api).error = true
        · simp [hr]
        · simp [hr]

/-- Witness for C9: a busy state swallows the click, a ready state
raises the flag in its synchronous prefix and ends with it cleared. -/
theorem busy_flag_gates_trigger_witness :
    (clickRecognize
      { imageFile := some { name := "a.png", mime := "image/png" },
        isLoading := true }
      (.loaded "payload") (.returns (.ok { breed := some "Angus" })) =
      { imageFile := some { name := "a.png", mime := "image/png" },
        isLoading := true }) ∧
    (handleRecognizeStart
      { imageFile := some { name := "a.png", mime := "image/png" },
        isLoading := false }).isLoading = true ∧
    (clickRecognize
      { imageFile := some { name := "a.png", mime := "image/png" },
        isLoading := false }
      (.loaded "payload") (.returns (.ok { breed := some "Angus" }))).isLoading
      = false :=
  ⟨(busy_flag_gates_trigger _ _ _).1 rfl,
   (busy_flag_gates_trigger
      { imageFile := some { name := "a.png", mime := "image/png" },
        isLoading := false }
      (.loaded "payload") (.returns (.ok { breed := some "Angus" }))).2.1 rfl,
   (busy_flag_gates_trigger _ _ _).2.2 rfl⟩

/-- C10: calling `handleImageChange` with a null file leaves the whole
shell state unchanged — selected file, image URL, breed result, error
and busy flag all keep their previous values — while a non-null file
updates the selection and its object URL, clears the previous result
and error, and leaves the busy flag as it was. -/
theorem handleImageChange_null_frame (createObjectURL : JSFile → String)
    (s : AppState) :
    handleImageChange createObjectURL s none = s ∧
    ∀ f : JSFile,
      (handleImageChange createObjectURL s (some f)).imageFile = some f ∧
      (handleImageChange createObjectURL s (some f)).imageUrl =
        some (createObjectURL f) ∧
      (handleImageChange createObjectURL s (some f)).breedInfo = none ∧
      (handleImageChange createObjectURL s (some f)).error = none ∧
      (handleImageChange createObjectURL s (some f)).isLoading = s.isLoading := by
  exact ⟨rfl, fun f => ⟨rfl, rfl, rfl, rfl, rfl⟩⟩

end CowBreed
